import Mathlib

/-!
Shallow embedding of the bank management system (src/database.py, src/transfer.py).

The external record store (a hosted `users` table) is modelled as a list of
rows plus a store-assigned next id and a schedule of store faults for
successive balance-write calls (`writeFaults`): each call to
`DatabaseManager.update_balance` consumes the head of the schedule (an absent
head means no fault).  Reads are modelled as fault-free filters: a read fault
in the source is caught and converted to the same "not found" result as a
genuinely absent row, so the two are indistinguishable to every caller.
Python integer truthiness is modelled by comparison with 0, string truthiness
by comparison with the empty string, and a record's possibly-missing
`balance` field by an `Option Int` read through `Option.getD 0`, exactly as
`dict.get("balance", 0)` does in the source.
-/

/-- A row of the `users` table: `id`, `name`, `email`, `balance`.  The
`balance` field may be absent from a fetched record (`none`). -/
structure UserRow where
  id : Int
  name : String
  email : String
  balance : Option Int
  deriving Repr, DecidableEq

/-- The external record store: the rows of the `users` table, the id the
store will assign to the next inserted row, and the schedule of store faults
for successive balance writes. -/
structure Store where
  rows : List UserRow
  nextId : Int
  writeFaults : List Bool
  deriving Repr, DecidableEq

/-- In-memory transaction record appended by a fully successful transfer
(src/transfer.py lines 91-102). -/
structure Transaction where
  sender_id : Int
  sender_name : String
  receiver_id : Int
  receiver_name : String
  amount : Int
  sender_balance_before : Int
  sender_balance_after : Int
  receiver_balance_before : Int
  receiver_balance_after : Int
  deriving Repr, DecidableEq

/-- State of a `TransferManager`: the store reached through `self.db` and the
in-memory `self.transactions` ledger. -/
structure TMState where
  store : Store
  transactions : List Transaction
  deriving Repr, DecidableEq

namespace DatabaseManager

/-- `get_user_by_id_and_name`: filter by `id` and `name`, first match or none
(src/database.py lines 15-40). -/
def get_user_by_id_and_name (s : Store) (user_id : Int) (name : String) :
    Option UserRow :=
  s.rows.find? (fun r => r.id == user_id && r.name == name)

/-- `get_user_by_id`: filter by `id` only, first match or none
(src/database.py lines 42-65). -/
def get_user_by_id (s : Store) (user_id : Int) : Option UserRow :=
  s.rows.find? (fun r => r.id == user_id)

/-- `get_user_balance`: compose `get_user_by_id_and_name`; on a found record
return `user.get("balance", 0)`, otherwise none (src/database.py lines 67-81). -/
def get_user_balance (s : Store) (user_id : Int) (name : String) : Option Int :=
  match get_user_by_id_and_name s user_id name with
  | some u => some (u.balance.getD 0)
  | none => none

/-- The effect of the filtered update on one row: rows matching the id get
the new balance, others are untouched. -/
def updRow (user_id : Int) (new_balance : Int) (r : UserRow) : UserRow :=
  if r.id == user_id then { r with balance := some new_balance } else r

/-- `update_balance`: consume one entry of the fault schedule; on a fault the
call raises, is caught, and returns `False` with the table untouched;
otherwise the filtered update fires and success means at least one row
matched the id (src/database.py lines 83-107). -/
def update_balance (s : Store) (user_id : Int) (new_balance : Int) :
    Bool × Store :=
  if s.writeFaults.headD false then
    (false, { s with writeFaults := s.writeFaults.tail })
  else
    (s.rows.any (fun r => r.id == user_id),
     { s with rows := s.rows.map (updRow user_id new_balance),
              writeFaults := s.writeFaults.tail })

/-- `create_account` on the database side: pre-check for an existing row with
the same email (case-sensitive exact match); on no conflict insert one row
with the store-assigned id and return it (src/database.py lines 123-160). -/
def create_account (s : Store) (name : String) (email : String)
    (initial_balance : Int) : (Bool × String × Option Int) × Store :=
  if s.rows.any (fun r => r.email == email) then
    ((false, "Email " ++ email ++ " already exists", none), s)
  else
    ((true,
      "Account created successfully for " ++ name ++ " with ID "
        ++ toString s.nextId,
      some s.nextId),
     { s with rows := s.rows ++ [⟨s.nextId, name, email, some initial_balance⟩],
              nextId := s.nextId + 1 })

/-- `delete_account` on the database side: pre-check existence by id, then
delete every row matching the id; the success message embeds the deleted
user's name (src/database.py lines 162-189). -/
def delete_account (s : Store) (user_id : Int) : (Bool × String) × Store :=
  match get_user_by_id s user_id with
  | none => ((false, "User with ID " ++ toString user_id ++ " not found"), s)
  | some user =>
    ((true,
      "Account for " ++ user.name ++ " (ID: " ++ toString user_id
        ++ ") deleted successfully"),
     { s with rows := s.rows.filter (fun r => !(r.id == user_id)) })

end DatabaseManager

namespace TransferManager

/-- `check_balance` (src/transfer.py lines 16-35).  The state is returned
unchanged: the method only reads. -/
def check_balance (st : TMState) (user_id : Int) (name : String) :
    (Bool × String × Option Int) × TMState :=
  if user_id == 0 || name == "" then
    ((false, "User ID and name are required", none), st)
  else
    match DatabaseManager.get_user_balance st.store user_id name with
    | none =>
      ((false,
        "User with ID " ++ toString user_id ++ " and name " ++ name
          ++ " not found", none), st)
    | some balance =>
      ((true, "Balance for " ++ name ++ ": $" ++ toString balance,
        some balance), st)

/-- Failure message of validation step 1 of `transfer_funds`. -/
def amountMsg : String := "Transfer amount must be greater than 0"

/-- Failure message of validation step 2 of `transfer_funds`. -/
def senderNotFoundMsg (sender_id : Int) (sender_name : String) : String :=
  "Sender with ID " ++ toString sender_id ++ " and name " ++ sender_name
    ++ " not found"

/-- Failure message of validation step 3 of `transfer_funds`. -/
def receiverNotFoundMsg (receiver_id : Int) : String :=
  "Receiver with ID " ++ toString receiver_id ++ " not found"

/-- Failure message of validation step 4 of `transfer_funds`: it embeds the
current balance and the required amount. -/
def insufficientMsg (balance : Int) (amount : Int) : String :=
  "Insufficient balance. Current balance: $" ++ toString balance
    ++ ", Required: $" ++ toString amount

/-- Failure message when the sender-side write fails. -/
def senderWriteFailMsg : String := "Failed to update sender balance"

/-- Failure message when the receiver-side write fails and the compensating
write has been attempted. -/
def rollbackMsg : String :=
  "Failed to update receiver balance. Transaction rolled back"

/-- Success message of `transfer_funds`. -/
def successMsg (amount : Int) (sender_name receiver_name : String) : String :=
  "Successfully transferred $" ++ toString amount ++ " from " ++ sender_name
    ++ " to " ++ receiver_name

/-- `transfer_funds` (src/transfer.py lines 37-107): validate amount, sender
lookup by id and name, receiver lookup by id, sufficient funds; then write
the sender balance, write the receiver balance (restoring the sender on
failure, result ignored), and append one transaction record on full
success. -/
def transfer_funds (st : TMState) (sender_id : Int) (sender_name : String)
    (receiver_id : Int) (amount : Int) : (Bool × String) × TMState :=
  if amount ≤ 0 then ((false, amountMsg), st)
  else
    match DatabaseManager.get_user_by_id_and_name st.store sender_id sender_name with
    | none => ((false, senderNotFoundMsg sender_id sender_name), st)
    | some sender =>
      match DatabaseManager.get_user_by_id st.store receiver_id with
      | none => ((false, receiverNotFoundMsg receiver_id), st)
      | some receiver =>
        if sender.balance.getD 0 < amount then
          ((false, insufficientMsg (sender.balance.getD 0) amount), st)
        else
          let r1 := DatabaseManager.update_balance st.store sender_id
            (sender.balance.getD 0 - amount)
          if !r1.1 then
            ((false, senderWriteFailMsg), { st with store := r1.2 })
          else
            let r2 := DatabaseManager.update_balance r1.2 receiver_id
              (receiver.balance.getD 0 + amount)
            if !r2.1 then
              let r3 := DatabaseManager.update_balance r2.2 sender_id
                (sender.balance.getD 0)
              ((false, rollbackMsg), { st with store := r3.2 })
            else
              ((true, successMsg amount sender_name receiver.name),
               { store := r2.2,
                 transactions := st.transactions ++
                   [{ sender_id := sender_id,
                      sender_name := sender_name,
                      receiver_id := receiver_id,
                      receiver_name := receiver.name,
                      amount := amount,
                      sender_balance_before := sender.balance.getD 0,
                      sender_balance_after := sender.balance.getD 0 - amount,
                      receiver_balance_before := receiver.balance.getD 0,
                      receiver_balance_after := receiver.balance.getD 0 + amount }] })

/-- `get_transaction_history` (src/transfer.py lines 109-116). -/
def get_transaction_history (st : TMState) : List Transaction :=
  st.transactions

/-- `create_account` on the service side (src/transfer.py lines 135-156):
validate name/email non-empty, email contains an at sign, non-negative
initial balance, then delegate to the repository. -/
def create_account (st : TMState) (name : String) (email : String)
    (initial_balance : Int) : (Bool × String × Option Int) × TMState :=
  if name == "" || email == "" then
    ((false, "Name and email are required", none), st)
  else if email == "" || !(email.data.contains '@') then
    ((false, "Invalid email format", none), st)
  else if initial_balance < 0 then
    ((false, "Initial balance cannot be negative", none), st)
  else
    let r := DatabaseManager.create_account st.store name email initial_balance
    (r.1, { st with store := r.2 })

/-- `delete_account` on the service side (src/transfer.py lines 158-181):
falsy id check, existence lookup by id, case-sensitive name confirmation,
then delegate to the repository. -/
def delete_account (st : TMState) (user_id : Int) (confirm_name : String) :
    (Bool × String) × TMState :=
  if user_id == 0 then ((false, "User ID is required"), st)
  else
    match DatabaseManager.get_user_by_id st.store user_id with
    | none => ((false, "User with ID " ++ toString user_id ++ " not found"), st)
    | some user =>
      if user.name != confirm_name then
        ((false, "Name confirmation failed. Account not deleted."), st)
      else
        let r := DatabaseManager.delete_account st.store user_id
        (r.1, { st with store := r.2 })

end TransferManager

/-- Every stored balance is non-negative (an absent balance field reads as 0,
as everywhere in the source). -/
def balancesNonneg (s : Store) : Prop :=
  ∀ r ∈ s.rows, 0 ≤ r.balance.getD 0

instance (s : Store) : Decidable (balancesNonneg s) := by
  unfold balancesNonneg; infer_instance

/-- Well-formedness of a transaction record: the before/after fields agree
with the amount, the amount is positive, and the sender is not overdrawn. -/
def txWF (t : Transaction) : Prop :=
  t.sender_balance_after = t.sender_balance_before - t.amount ∧
  t.receiver_balance_after = t.receiver_balance_before + t.amount ∧
  0 < t.amount ∧ 0 ≤ t.sender_balance_after

instance (t : Transaction) : Decidable (txWF t) := by
  unfold txWF; infer_instance

/-- The total amount of money stored across all rows. -/
def totalBalance (s : Store) : Int :=
  (s.rows.map (fun r => r.balance.getD 0)).sum

/-- Concrete fixture: user row with id 1. -/
def rowA : UserRow := ⟨1, "Alice", "alice@bank.io", some 100⟩

/-- Concrete fixture: user row with id 2. -/
def rowB : UserRow := ⟨2, "Bob", "bob@bank.io", some 0⟩

/-- Concrete fixture: a store holding the two rows, no pending store fault. -/
def store0 : Store := ⟨[rowA, rowB], 3, []⟩

/-- Concrete fixture: transfer-manager state over `store0` with an empty
ledger. -/
def st0 : TMState := ⟨store0, []⟩

/-- Concrete fixture: same rows, the schedule making the first balance write
succeed and the second one fail, the compensating write succeeding. -/
def stFail2 : TMState := ⟨⟨[rowA, rowB], 3, [false, true, false]⟩, []⟩

/-- Concrete fixture: a fetched row whose balance field is absent. -/
def rowC : UserRow := ⟨5, "Eve", "eve@bank.io", none⟩

/-- Concrete fixture: state whose store holds only the balance-less row. -/
def stNoBal : TMState := ⟨⟨[rowC], 6, []⟩, []⟩

/-! ### Helper lemmas about the embedded operations -/

namespace DatabaseManager

theorem updRow_id (user_id v : Int) (r : UserRow) :
    (updRow user_id v r).id = r.id := by
  unfold updRow; split <;> rfl

theorem updRow_name (user_id v : Int) (r : UserRow) :
    (updRow user_id v r).name = r.name := by
  unfold updRow; split <;> rfl

theorem find?_map_of_pred (f : UserRow → UserRow) (p : UserRow → Bool)
    (h : ∀ r, p (f r) = p r) (l : List UserRow) :
    (l.map f).find? p = (l.find? p).map f := by
  rw [List.find?_map, show p ∘ f = p from funext h]

theorem find?_idname_map (l : List UserRow) (uid w v : Int) (n : String) :
    (l.map (updRow w v)).find? (fun r => r.id == uid && r.name == n)
      = (l.find? (fun r => r.id == uid && r.name == n)).map (updRow w v) :=
  find?_map_of_pred _ _ (fun r => by simp [updRow_id, updRow_name]) l

theorem find?_id_map (l : List UserRow) (uid w v : Int) :
    (l.map (updRow w v)).find? (fun r => r.id == uid)
      = (l.find? (fun r => r.id == uid)).map (updRow w v) :=
  find?_map_of_pred _ _ (fun r => by simp [updRow_id]) l

theorem mem_of_idname {s : Store} {uid : Int} {n : String} {u : UserRow}
    (h : get_user_by_id_and_name s uid n = some u) : u ∈ s.rows :=
  List.mem_of_find?_eq_some h

theorem props_of_idname {s : Store} {uid : Int} {n : String} {u : UserRow}
    (h : get_user_by_id_and_name s uid n = some u) : u.id = uid ∧ u.name = n := by
  have h2 := List.find?_some h
  simpa using h2

theorem mem_of_byid {s : Store} {uid : Int} {u : UserRow}
    (h : get_user_by_id s uid = some u) : u ∈ s.rows :=
  List.mem_of_find?_eq_some h

theorem id_of_byid {s : Store} {uid : Int} {u : UserRow}
    (h : get_user_by_id s uid = some u) : u.id = uid := by
  have h2 := List.find?_some h
  simpa using h2

theorem any_id_of_mem {l : List UserRow} {u : UserRow} {uid : Int}
    (hm : u ∈ l) (hid : u.id = uid) :
    l.any (fun r => r.id == uid) = true := by
  rw [List.any_eq_true]
  exact ⟨u, hm, by simp [hid]⟩

theorem any_id_map {l : List UserRow} (w v uid : Int) :
    (l.map (updRow w v)).any (fun r => r.id == uid)
      = l.any (fun r => r.id == uid) := by
  rw [List.any_map]
  congr 1
  funext r
  simp [updRow_id]

end DatabaseManager

namespace TransferManager

theorem tf_amount_nonpos (st : TMState) (sender_id : Int) (sender_name : String)
    (receiver_id amount : Int) (h : amount ≤ 0) :
    transfer_funds st sender_id sender_name receiver_id amount
      = ((false, amountMsg), st) := by
  unfold transfer_funds
  rw [if_pos h]

theorem tf_no_sender (st : TMState) (sender_id : Int) (sender_name : String)
    (receiver_id amount : Int) (h : ¬ amount ≤ 0)
    (hs : DatabaseManager.get_user_by_id_and_name st.store sender_id sender_name
      = none) :
    transfer_funds st sender_id sender_name receiver_id amount
      = ((false, senderNotFoundMsg sender_id sender_name), st) := by
  unfold transfer_funds
  rw [if_neg h, hs]

theorem tf_no_receiver (st : TMState) (sender_id : Int) (sender_name : String)
    (receiver_id amount : Int) (sender : UserRow) (h : ¬ amount ≤ 0)
    (hs : DatabaseManager.get_user_by_id_and_name st.store sender_id sender_name
      = some sender)
    (hr : DatabaseManager.get_user_by_id st.store receiver_id = none) :
    transfer_funds st sender_id sender_name receiver_id amount
      = ((false, receiverNotFoundMsg receiver_id), st) := by
  unfold transfer_funds
  rw [if_neg h, hs, hr]

theorem tf_insufficient (st : TMState) (sender_id : Int) (sender_name : String)
    (receiver_id amount : Int) (sender receiver : UserRow) (h : ¬ amount ≤ 0)
    (hs : DatabaseManager.get_user_by_id_and_name st.store sender_id sender_name
      = some sender)
    (hr : DatabaseManager.get_user_by_id st.store receiver_id = some receiver)
    (hlt : sender.balance.getD 0 < amount) :
    transfer_funds st sender_id sender_name receiver_id amount
      = ((false, insufficientMsg (sender.balance.getD 0) amount), st) := by
  unfold transfer_funds
  rw [if_neg h, hs, hr]
  simp only [if_pos hlt]

theorem tf_write1_fail (st : TMState) (sender_id : Int) (sender_name : String)
    (receiver_id amount : Int) (sender receiver : UserRow) (h : ¬ amount ≤ 0)
    (hs : DatabaseManager.get_user_by_id_and_name st.store sender_id sender_name
      = some sender)
    (hr : DatabaseManager.get_user_by_id st.store receiver_id = some receiver)
    (hge : ¬ sender.balance.getD 0 < amount)
    (hf : st.store.writeFaults.headD false = true) :
    transfer_funds st sender_id sender_name receiver_id amount
      = ((false, senderWriteFailMsg),
         { st with store :=
             { st.store with writeFaults := st.store.writeFaults.tail } }) := by
  rw [List.headD_eq_head?_getD] at hf
  unfold transfer_funds
  rw [if_neg h, hs, hr]
  simp [DatabaseManager.update_balance, hge, hf]

theorem tf_write2_fail (st : TMState) (sender_id : Int) (sender_name : String)
    (receiver_id amount : Int) (sender receiver : UserRow) (h : ¬ amount ≤ 0)
    (hs : DatabaseManager.get_user_by_id_and_name st.store sender_id sender_name
      = some sender)
    (hr : DatabaseManager.get_user_by_id st.store receiver_id = some receiver)
    (hge : ¬ sender.balance.getD 0 < amount)
    (hf1 : st.store.writeFaults.headD false = false)
    (hf2 : st.store.writeFaults.tail.headD false = true) :
    transfer_funds st sender_id sender_name receiver_id amount
      = ((false, rollbackMsg),
         { st with store :=
             (DatabaseManager.update_balance
               { st.store with
                   rows := st.store.rows.map
                     (DatabaseManager.updRow sender_id (sender.balance.getD 0 - amount)),
                   writeFaults := st.store.writeFaults.tail.tail }
               sender_id (sender.balance.getD 0)).2 }) := by
  have hany1 : st.store.rows.any (fun r => r.id == sender_id) = true :=
    DatabaseManager.any_id_of_mem (DatabaseManager.mem_of_idname hs)
      (DatabaseManager.props_of_idname hs).1
  simp only [List.headD_eq_head?_getD] at hf1
  simp only [List.headD_eq_head?_getD, List.head?_tail] at hf2
  unfold transfer_funds
  rw [if_neg h, hs, hr]
  simp [DatabaseManager.update_balance, hge, hf1, hf2, hany1]

theorem tf_success (st : TMState) (sender_id : Int) (sender_name : String)
    (receiver_id amount : Int) (sender receiver : UserRow) (h : ¬ amount ≤ 0)
    (hs : DatabaseManager.get_user_by_id_and_name st.store sender_id sender_name
      = some sender)
    (hr : DatabaseManager.get_user_by_id st.store receiver_id = some receiver)
    (hge : ¬ sender.balance.getD 0 < amount)
    (hf1 : st.store.writeFaults.headD false = false)
    (hf2 : st.store.writeFaults.tail.headD false = false) :
    transfer_funds st sender_id sender_name receiver_id amount
      = ((true, successMsg amount sender_name receiver.name),
         { store :=
             { st.store with
                 rows := (st.store.rows.map
                     (DatabaseManager.updRow sender_id (sender.balance.getD 0 - amount))).map
                   (DatabaseManager.updRow receiver_id (receiver.balance.getD 0 + amount)),
                 writeFaults := st.store.writeFaults.tail.tail },
           transactions := st.transactions ++
             [⟨sender_id, sender_name, receiver_id, receiver.name, amount,
               sender.balance.getD 0, sender.balance.getD 0 - amount,
               receiver.balance.getD 0, receiver.balance.getD 0 + amount⟩] }) := by
  have hany1 : st.store.rows.any (fun r => r.id == sender_id) = true :=
    DatabaseManager.any_id_of_mem (DatabaseManager.mem_of_idname hs)
      (DatabaseManager.props_of_idname hs).1
  have hany2 : (st.store.rows.map
      (DatabaseManager.updRow sender_id (sender.balance.getD 0 - amount))).any
        (fun r => r.id == receiver_id) = true := by
    rw [DatabaseManager.any_id_map]
    exact DatabaseManager.any_id_of_mem (DatabaseManager.mem_of_byid hr)
      (DatabaseManager.id_of_byid hr)
  simp only [List.headD_eq_head?_getD] at hf1
  simp only [List.headD_eq_head?_getD, List.head?_tail] at hf2
  simp only [List.any_map] at hany2
  unfold transfer_funds
  rw [if_neg h, hs, hr]
  simp [DatabaseManager.update_balance, hge, hf1, hf2, hany1, hany2]

end TransferManager

namespace DatabaseManager

theorem updRow_hit {uid v : Int} {r : UserRow} (h : r.id = uid) :
    updRow uid v r = { r with balance := some v } := by
  unfold updRow
  rw [if_pos (by simp [h])]

theorem updRow_miss {uid v : Int} {r : UserRow} (h : ¬ r.id = uid) :
    updRow uid v r = r := by
  unfold updRow
  rw [if_neg (by simp [h])]

theorem nonneg_map_updRow {l : List UserRow} {uid v : Int}
    (h : ∀ r ∈ l, 0 ≤ r.balance.getD 0) (hv : 0 ≤ v) :
    ∀ r ∈ l.map (updRow uid v), 0 ≤ r.balance.getD 0 := by
  intro r hr
  rcases List.mem_map.mp hr with ⟨r0, hr0, rfl⟩
  unfold updRow
  split
  · simpa using hv
  · exact h r0 hr0

theorem update_balance_nonneg {s : Store} {uid v : Int}
    (h : balancesNonneg s) (hv : 0 ≤ v) :
    balancesNonneg (update_balance s uid v).2 := by
  unfold update_balance
  split
  · exact h
  · exact nonneg_map_updRow h hv

theorem find?_idname_of_find?_id {l : List UserRow} {uid : Int} {u : UserRow}
    {n : String} (hu : l.find? (fun r => r.id == uid) = some u)
    (hn : u.name = n) :
    l.find? (fun r => r.id == uid && r.name == n) = some u := by
  induction l with
  | nil => simp at hu
  | cons x xs ih =>
    by_cases hx : (x.id == uid) = true
    · simp only [List.find?_cons, hx] at hu
      have hxu : x = u := by injection hu
      subst hxu
      have hcond : (x.id == uid && x.name == n) = true := by simp [hx, hn]
      simp [List.find?_cons, hcond]
    · have hx' : (x.id == uid) = false := by simpa using hx
      simp only [List.find?_cons, hx'] at hu
      have hcond : (x.id == uid && x.name == n) = false := by simp [hx']
      simp only [List.find?_cons, hcond]
      exact ih hu

theorem map_eq_self_of_miss {l : List UserRow} {g : UserRow → UserRow}
    {uid : Int} (hMiss : ∀ r : UserRow, (r.id == uid) = false → g r = r)
    (h : ∀ r ∈ l, (r.id == uid) = false) : l.map g = l := by
  induction l with
  | nil => rfl
  | cons x xs ih =>
    rw [List.map_cons, hMiss x (h x (List.mem_cons_self x xs)),
      ih (fun r hr => h r (List.mem_cons_of_mem x hr))]

theorem sum_two_updates (l : List UserRow) (uid : Int) (u : UserRow)
    (v1 v2 : Int) (hFilter : l.filter (fun r => r.id == uid) = [u]) :
    (((l.map (updRow uid v1)).map (updRow uid v2)).map
        (fun r => r.balance.getD 0)).sum
      = (l.map (fun r => r.balance.getD 0)).sum + (v2 - u.balance.getD 0) := by
  induction l with
  | nil => simp at hFilter
  | cons x xs ih =>
    by_cases hx : (x.id == uid) = true
    · simp only [List.filter_cons, hx, if_true] at hFilter
      have hxu : x = u := by injection hFilter
      have hnil : xs.filter (fun r => r.id == uid) = [] := by
        injection hFilter
      have hmiss : ∀ r ∈ xs, (r.id == uid) = false :=
        fun r hr => by
          have h2 := List.filter_eq_nil_iff.mp hnil r hr
          simpa using h2
      have hxs1 : xs.map (updRow uid v1) = xs :=
        map_eq_self_of_miss
          (fun r hr => updRow_miss (by simpa using hr)) hmiss
      have hxs2 : xs.map (updRow uid v2) = xs :=
        map_eq_self_of_miss
          (fun r hr => updRow_miss (by simpa using hr)) hmiss
      have hid : x.id = uid := by simpa using hx
      subst hxu
      simp only [List.map_cons, List.sum_cons, hxs1, hxs2,
        updRow_hit hid, updRow_hit (show ({ x with balance := some v1 }
          : UserRow).id = uid from hid)]
      simp only [Option.getD_some, UserRow.balance]
      omega
    · have hx' : (x.id == uid) = false := by simpa using hx
      simp only [List.filter_cons, hx', if_false] at hFilter
      have hgx1 : updRow uid v1 x = x := updRow_miss (by simpa using hx')
      simp only [List.map_cons, hgx1, List.sum_cons,
        updRow_miss (show ¬ x.id = uid by simpa using hx'), ih hFilter]
      omega

end DatabaseManager

namespace TransferManager

theorem cb_state (st : TMState) (user_id : Int) (name : String) :
    (check_balance st user_id name).2 = st := by
  unfold check_balance
  split
  · rfl
  · split <;> rfl

theorem ca_transactions (st : TMState) (name email : String) (bal : Int) :
    (create_account st name email bal).2.transactions = st.transactions := by
  unfold create_account
  split
  · rfl
  · split
    · rfl
    · split <;> rfl

theorem da_transactions (st : TMState) (user_id : Int) (confirm_name : String) :
    (delete_account st user_id confirm_name).2.transactions
      = st.transactions := by
  unfold delete_account
  split
  · rfl
  · split
    · rfl
    · split <;> rfl

end TransferManager

namespace DatabaseManager

theorem db_create_nonneg {s : Store} {n e : String} {b : Int}
    (h : balancesNonneg s) (hb : 0 ≤ b) :
    balancesNonneg (create_account s n e b).2 := by
  unfold create_account
  split
  · exact h
  · intro r hr
    rcases List.mem_append.mp hr with hr | hr
    · exact h r hr
    · simp only [List.mem_singleton] at hr
      subst hr
      simpa using hb

theorem db_delete_nonneg {s : Store} {uid : Int} (h : balancesNonneg s) :
    balancesNonneg (delete_account s uid).2 := by
  unfold delete_account
  split
  · exact h
  · intro r hr
    exact h r (List.mem_of_mem_filter hr)

end DatabaseManager

namespace TransferManager

theorem ca_preserves_nonneg (st : TMState) (name email : String) (bal : Int)
    (h : balancesNonneg st.store) :
    balancesNonneg (create_account st name email bal).2.store := by
  unfold create_account
  split
  · exact h
  split
  · exact h
  split
  · exact h
  · rename_i hbal
    exact DatabaseManager.db_create_nonneg h (by omega)

theorem da_preserves_nonneg (st : TMState) (user_id : Int)
    (confirm_name : String) (h : balancesNonneg st.store) :
    balancesNonneg (delete_account st user_id confirm_name).2.store := by
  unfold delete_account
  split
  · exact h
  split
  · exact h
  split
  · exact h
  · exact DatabaseManager.db_delete_nonneg h

theorem tf_preserves_nonneg (st : TMState) (sender_id : Int)
    (sender_name : String) (receiver_id amount : Int)
    (h : balancesNonneg st.store) :
    balancesNonneg
      (transfer_funds st sender_id sender_name receiver_id amount).2.store := by
  by_cases h0 : amount ≤ 0
  · rw [tf_amount_nonpos st sender_id sender_name receiver_id amount h0]
    exact h
  cases hs : DatabaseManager.get_user_by_id_and_name st.store sender_id sender_name with
  | none =>
    rw [tf_no_sender st sender_id sender_name receiver_id amount h0 hs]
    exact h
  | some sender =>
    cases hr : DatabaseManager.get_user_by_id st.store receiver_id with
    | none =>
      rw [tf_no_receiver st sender_id sender_name receiver_id amount sender h0 hs hr]
      exact h
    | some receiver =>
      by_cases hlt : sender.balance.getD 0 < amount
      · rw [tf_insufficient st sender_id sender_name receiver_id amount
          sender receiver h0 hs hr hlt]
        exact h
      have hs0 : 0 ≤ sender.balance.getD 0 :=
        h sender (DatabaseManager.mem_of_idname hs)
      have hr0 : 0 ≤ receiver.balance.getD 0 :=
        h receiver (DatabaseManager.mem_of_byid hr)
      by_cases hf1 : st.store.writeFaults.headD false = true
      · rw [tf_write1_fail st sender_id sender_name receiver_id amount
          sender receiver h0 hs hr hlt hf1]
        exact h
      have hf1' : st.store.writeFaults.headD false = false := by
        simpa using hf1
      by_cases hf2 : st.store.writeFaults.tail.headD false = true
      · rw [tf_write2_fail st sender_id sender_name receiver_id amount
          sender receiver h0 hs hr hlt hf1' hf2]
        apply DatabaseManager.update_balance_nonneg _ hs0
        exact DatabaseManager.nonneg_map_updRow h (by omega)
      · have hf2' : st.store.writeFaults.tail.headD false = false := by
          simpa using hf2
        rw [tf_success st sender_id sender_name receiver_id amount
          sender receiver h0 hs hr hlt hf1' hf2']
        exact DatabaseManager.nonneg_map_updRow
          (DatabaseManager.nonneg_map_updRow h (by omega)) (by omega)

theorem tf_ledger (st : TMState) (sender_id : Int) (sender_name : String)
    (receiver_id amount : Int) :
    ((transfer_funds st sender_id sender_name receiver_id amount).1.1 = false →
      (transfer_funds st sender_id sender_name receiver_id amount).2.transactions
        = st.transactions) ∧
    ((transfer_funds st sender_id sender_name receiver_id amount).1.1 = true →
      ∃ t, txWF t ∧
        (transfer_funds st sender_id sender_name receiver_id amount).2.transactions
          = st.transactions ++ [t]) := by
  by_cases h0 : amount ≤ 0
  · rw [tf_amount_nonpos st sender_id sender_name receiver_id amount h0]
    exact ⟨fun _ => rfl, fun hc => by simp at hc⟩
  cases hs : DatabaseManager.get_user_by_id_and_name st.store sender_id sender_name with
  | none =>
    rw [tf_no_sender st sender_id sender_name receiver_id amount h0 hs]
    exact ⟨fun _ => rfl, fun hc => by simp at hc⟩
  | some sender =>
    cases hr : DatabaseManager.get_user_by_id st.store receiver_id with
    | none =>
      rw [tf_no_receiver st sender_id sender_name receiver_id amount sender h0 hs hr]
      exact ⟨fun _ => rfl, fun hc => by simp at hc⟩
    | some receiver =>
      by_cases hlt : sender.balance.getD 0 < amount
      · rw [tf_insufficient st sender_id sender_name receiver_id amount
          sender receiver h0 hs hr hlt]
        exact ⟨fun _ => rfl, fun hc => by simp at hc⟩
      by_cases hf1 : st.store.writeFaults.headD false = true
      · rw [tf_write1_fail st sender_id sender_name receiver_id amount
          sender receiver h0 hs hr hlt hf1]
        exact ⟨fun _ => rfl, fun hc => by simp at hc⟩
      have hf1' : st.store.writeFaults.headD false = false := by
        simpa using hf1
      by_cases hf2 : st.store.writeFaults.tail.headD false = true
      · rw [tf_write2_fail st sender_id sender_name receiver_id amount
          sender receiver h0 hs hr hlt hf1' hf2]
        exact ⟨fun _ => rfl, fun hc => by simp at hc⟩
      · have hf2' : st.store.writeFaults.tail.headD false = false := by
          simpa using hf2
        rw [tf_success st sender_id sender_name receiver_id amount
          sender receiver h0 hs hr hlt hf1' hf2']
        refine ⟨fun hc => by simp at hc, fun _ => ?_⟩
        exact ⟨_, ⟨rfl, rfl, show 0 < amount by omega,
          show 0 ≤ sender.balance.getD 0 - amount by omega⟩, rfl⟩

end TransferManager

/-! ### Claim theorems -/

/-- C1 is refuted as stated: in a self-transfer (sender id = receiver id = 1)
every hypothesis of the claim holds — the amount 40 is positive, the sender is
found by id and name with balance 100 ≥ 40, the receiver is found by id with
balance 100, and both balance writes succeed — and the call returns success,
yet the sender's stored balance becomes 140 = 100 + 40, not 60 = 100 - 40. -/
theorem C1_counterexample :
    DatabaseManager.get_user_by_id_and_name st0.store 1 "Alice" = some rowA ∧
    DatabaseManager.get_user_by_id st0.store 1 = some rowA ∧
    st0.store.writeFaults = [] ∧
    (TransferManager.transfer_funds st0 1 "Alice" 1 40).1.1 = true ∧
    DatabaseManager.get_user_balance
        (TransferManager.transfer_funds st0 1 "Alice" 1 40).2.store 1 "Alice"
      = some 140 ∧
    ¬ (DatabaseManager.get_user_balance
        (TransferManager.transfer_funds st0 1 "Alice" 1 40).2.store 1 "Alice"
      = some 60) := by
  decide

/-- C1 (amended: the sender and receiver ids must in addition be distinct; a
self-transfer instead ends with the single account holding b + a, see the
counterexample): for every amount a > 0, when the sender is found by id and
name with balance b ≥ a, the receiver is found by id with balance r, and both
balance writes succeed, `transfer_funds` returns success, the sender's stored
row afterwards carries balance b - a, the receiver's stored row carries
balance r + a, and exactly one transaction record is appended whose fields
match the amount and the before/after balances. -/
theorem C1_transfer_success (st : TMState) (sender_id : Int)
    (sender_name : String) (receiver_id amount : Int)
    (sender receiver : UserRow)
    (hne : sender_id ≠ receiver_id)
    (ha : 0 < amount)
    (hs : DatabaseManager.get_user_by_id_and_name st.store sender_id sender_name
      = some sender)
    (hr : DatabaseManager.get_user_by_id st.store receiver_id = some receiver)
    (hb : amount ≤ sender.balance.getD 0)
    (hf1 : st.store.writeFaults.headD false = false)
    (hf2 : st.store.writeFaults.tail.headD false = false) :
    (TransferManager.transfer_funds st sender_id sender_name receiver_id amount).1.1
      = true ∧
    DatabaseManager.get_user_by_id_and_name
        (TransferManager.transfer_funds st sender_id sender_name receiver_id amount).2.store
        sender_id sender_name
      = some { sender with balance := some (sender.balance.getD 0 - amount) } ∧
    DatabaseManager.get_user_by_id
        (TransferManager.transfer_funds st sender_id sender_name receiver_id amount).2.store
        receiver_id
      = some { receiver with balance := some (receiver.balance.getD 0 + amount) } ∧
    (TransferManager.transfer_funds st sender_id sender_name receiver_id amount).2.transactions
      = st.transactions ++
        [⟨sender_id, sender_name, receiver_id, receiver.name, amount,
          sender.balance.getD 0, sender.balance.getD 0 - amount,
          receiver.balance.getD 0, receiver.balance.getD 0 + amount⟩] := by
  have h0 : ¬ amount ≤ 0 := by omega
  have hge : ¬ sender.balance.getD 0 < amount := by omega
  have hsid : sender.id = sender_id := (DatabaseManager.props_of_idname hs).1
  have hrid : receiver.id = receiver_id := DatabaseManager.id_of_byid hr
  rw [TransferManager.tf_success st sender_id sender_name receiver_id amount
    sender receiver h0 hs hr hge hf1 hf2]
  refine ⟨rfl, ?_, ?_, rfl⟩
  · unfold DatabaseManager.get_user_by_id_and_name at hs ⊢
    simp only [DatabaseManager.find?_idname_map, hs, Option.map_some']
    rw [DatabaseManager.updRow_hit hsid]
    rw [DatabaseManager.updRow_miss
      (show ¬ ({ sender with balance := some (sender.balance.getD 0 - amount) }
        : UserRow).id = receiver_id from by simpa [hsid] using hne)]
  · unfold DatabaseManager.get_user_by_id at hr ⊢
    simp only [DatabaseManager.find?_id_map, hr, Option.map_some']
    rw [DatabaseManager.updRow_miss
      (show ¬ receiver.id = sender_id from by simpa [hrid] using hne.symm)]
    rw [DatabaseManager.updRow_hit hrid]

/-- Witness for C1: transferring 40 from Alice (id 1, balance 100) to Bob
(id 2, balance 0) succeeds, leaves Alice at 60 and Bob at 40, and appends the
matching transaction record. -/
theorem C1_witness :
    (TransferManager.transfer_funds st0 1 "Alice" 2 40).1.1 = true ∧
    DatabaseManager.get_user_by_id_and_name
        (TransferManager.transfer_funds st0 1 "Alice" 2 40).2.store 1 "Alice"
      = some ⟨1, "Alice", "alice@bank.io", some 60⟩ ∧
    DatabaseManager.get_user_by_id
        (TransferManager.transfer_funds st0 1 "Alice" 2 40).2.store 2
      = some ⟨2, "Bob", "bob@bank.io", some 40⟩ ∧
    (TransferManager.transfer_funds st0 1 "Alice" 2 40).2.transactions
      = [⟨1, "Alice", 2, "Bob", 40, 100, 60, 0, 40⟩] := by
  have h := C1_transfer_success st0 1 "Alice" 2 40 rowA rowB (by decide)
    (by decide) (by decide) (by decide) (by decide) (by decide) (by decide)
  exact ⟨h.1, h.2.1.trans (by decide), h.2.2.1.trans (by decide),
    h.2.2.2.trans (by decide)⟩

/-- C2: `transfer_funds` performs its checks in exactly the order amount,
sender lookup by id and name, receiver lookup by id only, sufficient funds;
the first failing check determines the returned failure with that step's
message, and no later step is evaluated — in particular the whole state is
returned untouched. -/
theorem C2_validation_order (st : TMState) (sender_id : Int)
    (sender_name : String) (receiver_id amount : Int) :
    (amount ≤ 0 →
      TransferManager.transfer_funds st sender_id sender_name receiver_id amount
        = ((false, TransferManager.amountMsg), st)) ∧
    (¬ amount ≤ 0 →
      DatabaseManager.get_user_by_id_and_name st.store sender_id sender_name = none →
      TransferManager.transfer_funds st sender_id sender_name receiver_id amount
        = ((false, TransferManager.senderNotFoundMsg sender_id sender_name), st)) ∧
    (∀ sender, ¬ amount ≤ 0 →
      DatabaseManager.get_user_by_id_and_name st.store sender_id sender_name
        = some sender →
      DatabaseManager.get_user_by_id st.store receiver_id = none →
      TransferManager.transfer_funds st sender_id sender_name receiver_id amount
        = ((false, TransferManager.receiverNotFoundMsg receiver_id), st)) ∧
    (∀ sender receiver, ¬ amount ≤ 0 →
      DatabaseManager.get_user_by_id_and_name st.store sender_id sender_name
        = some sender →
      DatabaseManager.get_user_by_id st.store receiver_id = some receiver →
      sender.balance.getD 0 < amount →
      TransferManager.transfer_funds st sender_id sender_name receiver_id amount
        = ((false, TransferManager.insufficientMsg (sender.balance.getD 0) amount),
           st)) :=
  ⟨fun h => TransferManager.tf_amount_nonpos st sender_id sender_name
      receiver_id amount h,
   fun h hs => TransferManager.tf_no_sender st sender_id sender_name
      receiver_id amount h hs,
   fun sender h hs hr => TransferManager.tf_no_receiver st sender_id sender_name
      receiver_id amount sender h hs hr,
   fun sender receiver h hs hr hlt => TransferManager.tf_insufficient st
      sender_id sender_name receiver_id amount sender receiver h hs hr hlt⟩

/-- Witness for C2: each of the four validation failures observed at a
concrete input over the two-user fixture store. -/
theorem C2_witness :
    TransferManager.transfer_funds st0 1 "Alice" 2 0
      = ((false, TransferManager.amountMsg), st0) ∧
    TransferManager.transfer_funds st0 7 "Zed" 2 5
      = ((false, TransferManager.senderNotFoundMsg 7 "Zed"), st0) ∧
    TransferManager.transfer_funds st0 1 "Alice" 9 5
      = ((false, TransferManager.receiverNotFoundMsg 9), st0) ∧
    TransferManager.transfer_funds st0 1 "Alice" 2 999
      = ((false, TransferManager.insufficientMsg 100 999), st0) :=
  ⟨(C2_validation_order st0 1 "Alice" 2 0).1 (by decide),
   (C2_validation_order st0 7 "Zed" 2 5).2.1 (by decide) (by decide),
   (C2_validation_order st0 1 "Alice" 9 5).2.2.1 rowA (by decide) (by decide)
     (by decide),
   (C2_validation_order st0 1 "Alice" 2 999).2.2.2 rowA rowB (by decide)
     (by decide) (by decide) (by decide)⟩

/-- C3: whenever `transfer_funds` fails during validation — non-positive
amount, sender not found, receiver not found, or insufficient balance — the
returned state (store rows, fault schedule and ledger alike) is exactly the
initial one: no balance write is issued and no transaction is appended; the
insufficient-funds message embeds the current balance and the required
amount. -/
theorem C3_validation_preserves_state (st : TMState) (sender_id : Int)
    (sender_name : String) (receiver_id amount : Int) :
    (amount ≤ 0 →
      (TransferManager.transfer_funds st sender_id sender_name receiver_id amount).2
        = st) ∧
    (¬ amount ≤ 0 →
      DatabaseManager.get_user_by_id_and_name st.store sender_id sender_name = none →
      (TransferManager.transfer_funds st sender_id sender_name receiver_id amount).2
        = st) ∧
    (∀ sender, ¬ amount ≤ 0 →
      DatabaseManager.get_user_by_id_and_name st.store sender_id sender_name
        = some sender →
      DatabaseManager.get_user_by_id st.store receiver_id = none →
      (TransferManager.transfer_funds st sender_id sender_name receiver_id amount).2
        = st) ∧
    (∀ sender receiver, ¬ amount ≤ 0 →
      DatabaseManager.get_user_by_id_and_name st.store sender_id sender_name
        = some sender →
      DatabaseManager.get_user_by_id st.store receiver_id = some receiver →
      sender.balance.getD 0 < amount →
      (TransferManager.transfer_funds st sender_id sender_name receiver_id amount).2
        = st ∧
      (TransferManager.transfer_funds st sender_id sender_name receiver_id amount).1.2
        = "Insufficient balance. Current balance: $"
            ++ toString (sender.balance.getD 0) ++ ", Required: $"
            ++ toString amount) := by
  refine ⟨fun h => ?_, fun h hs => ?_, fun sender h hs hr => ?_,
    fun sender receiver h hs hr hlt => ?_⟩
  · rw [TransferManager.tf_amount_nonpos st sender_id sender_name receiver_id
      amount h]
  · rw [TransferManager.tf_no_sender st sender_id sender_name receiver_id
      amount h hs]
  · rw [TransferManager.tf_no_receiver st sender_id sender_name receiver_id
      amount sender h hs hr]
  · rw [TransferManager.tf_insufficient st sender_id sender_name receiver_id
      amount sender receiver h hs hr hlt]
    exact ⟨rfl, rfl⟩

/-- Witness for C3: the four validation failures at concrete inputs leave the
fixture state untouched, and the insufficient-funds message shows both
numbers. -/
theorem C3_witness :
    (TransferManager.transfer_funds st0 1 "Alice" 2 (-5)).2 = st0 ∧
    (TransferManager.transfer_funds st0 7 "Zed" 2 5).2 = st0 ∧
    (TransferManager.transfer_funds st0 1 "Alice" 9 5).2 = st0 ∧
    (TransferManager.transfer_funds st0 1 "Alice" 2 999).2 = st0 ∧
    (TransferManager.transfer_funds st0 1 "Alice" 2 999).1.2
      = "Insufficient balance. Current balance: $100, Required: $999" := by
  have h4 := (C3_validation_preserves_state st0 1 "Alice" 2 999).2.2.2 rowA rowB
    (by decide) (by decide) (by decide) (by decide)
  exact ⟨(C3_validation_preserves_state st0 1 "Alice" 2 (-5)).1 (by decide),
    (C3_validation_preserves_state st0 7 "Zed" 2 5).2.1 (by decide) (by decide),
    (C3_validation_preserves_state st0 1 "Alice" 9 5).2.2.1 rowA (by decide)
      (by decide) (by decide),
    h4.1, h4.2.trans (by decide)⟩

/-- C4: when the sender-side write succeeds and the receiver-side write
fails, the call returns the rollback failure message, appends no transaction,
consumes a third schedule entry for the compensating write whose result is
ignored, and whenever that compensating write itself succeeds the sender's
stored balance afterwards equals the pre-transfer balance. -/
theorem C4_rollback (st : TMState) (sender_id : Int) (sender_name : String)
    (receiver_id amount : Int) (sender receiver : UserRow)
    (ha : 0 < amount)
    (hs : DatabaseManager.get_user_by_id_and_name st.store sender_id sender_name
      = some sender)
    (hr : DatabaseManager.get_user_by_id st.store receiver_id = some receiver)
    (hb : amount ≤ sender.balance.getD 0)
    (hf1 : st.store.writeFaults.headD false = false)
    (hf2 : st.store.writeFaults.tail.headD false = true) :
    (TransferManager.transfer_funds st sender_id sender_name receiver_id amount).1
      = (false, TransferManager.rollbackMsg) ∧
    (TransferManager.transfer_funds st sender_id sender_name receiver_id amount).2.transactions
      = st.transactions ∧
    (TransferManager.transfer_funds st sender_id sender_name receiver_id amount).2.store.writeFaults
      = st.store.writeFaults.tail.tail.tail ∧
    (st.store.writeFaults.tail.tail.headD false = false →
      DatabaseManager.get_user_balance
          (TransferManager.transfer_funds st sender_id sender_name receiver_id amount).2.store
          sender_id sender_name
        = some (sender.balance.getD 0)) := by
  have h0 : ¬ amount ≤ 0 := by omega
  have hge : ¬ sender.balance.getD 0 < amount := by omega
  have hsid : sender.id = sender_id := (DatabaseManager.props_of_idname hs).1
  rw [TransferManager.tf_write2_fail st sender_id sender_name receiver_id amount
    sender receiver h0 hs hr hge hf1 hf2]
  refine ⟨rfl, rfl, ?_, ?_⟩
  · unfold DatabaseManager.update_balance
    split <;> rfl
  · intro hf3
    simp only [List.headD_eq_head?_getD, List.head?_tail,
      List.getElem?_tail] at hf3
    unfold DatabaseManager.update_balance
    rw [if_neg (by simp [hf3])]
    unfold DatabaseManager.get_user_balance DatabaseManager.get_user_by_id_and_name
    unfold DatabaseManager.get_user_by_id_and_name at hs
    simp only [DatabaseManager.find?_idname_map, hs, Option.map_some']
    rw [DatabaseManager.updRow_hit hsid]
    rw [DatabaseManager.updRow_hit
      (show ({ sender with balance := some (sender.balance.getD 0 - amount) }
        : UserRow).id = sender_id from hsid)]
    rfl

/-- Witness for C4: with the fault schedule [false, true, false] the transfer
of 40 from Alice to Bob fails with the rollback message, appends nothing,
consumes all three schedule entries, and Alice's stored balance is restored
to 100. -/
theorem C4_witness :
    (TransferManager.transfer_funds stFail2 1 "Alice" 2 40).1
      = (false, TransferManager.rollbackMsg) ∧
    (TransferManager.transfer_funds stFail2 1 "Alice" 2 40).2.transactions
      = [] ∧
    (TransferManager.transfer_funds stFail2 1 "Alice" 2 40).2.store.writeFaults
      = [] ∧
    DatabaseManager.get_user_balance
        (TransferManager.transfer_funds stFail2 1 "Alice" 2 40).2.store 1 "Alice"
      = some 100 := by
  have h := C4_rollback stFail2 1 "Alice" 2 40 rowA rowB (by decide) (by decide)
    (by decide) (by decide) (by decide) (by decide)
  exact ⟨h.1, h.2.1.trans (by decide), h.2.2.1.trans (by decide),
    (h.2.2.2 (by decide)).trans (by decide)⟩

/-- C5: `create_account` fails with no row inserted when the name or email is
empty, when the email lacks an at sign, when the initial balance is negative,
or when a row with the same email (case-sensitive exact match) already
exists; otherwise it inserts exactly one row and returns success with the
store-assigned id. -/
theorem C5_create_account (st : TMState) (name email : String) (bal : Int) :
    (name = "" ∨ email = "" →
      TransferManager.create_account st name email bal
        = ((false, "Name and email are required", none), st)) ∧
    (name ≠ "" → email ≠ "" → email.data.contains '@' = false →
      TransferManager.create_account st name email bal
        = ((false, "Invalid email format", none), st)) ∧
    (name ≠ "" → email ≠ "" → email.data.contains '@' = true → bal < 0 →
      TransferManager.create_account st name email bal
        = ((false, "Initial balance cannot be negative", none), st)) ∧
    (name ≠ "" → email ≠ "" → email.data.contains '@' = true → ¬ bal < 0 →
      st.store.rows.any (fun r => r.email == email) = true →
      TransferManager.create_account st name email bal
        = ((false, "Email " ++ email ++ " already exists", none), st)) ∧
    (name ≠ "" → email ≠ "" → email.data.contains '@' = true → ¬ bal < 0 →
      st.store.rows.any (fun r => r.email == email) = false →
      TransferManager.create_account st name email bal
        = ((true,
            "Account created successfully for " ++ name ++ " with ID "
              ++ toString st.store.nextId,
            some st.store.nextId),
           { st with store := { st.store with
               rows := st.store.rows
                 ++ [⟨st.store.nextId, name, email, some bal⟩],
               nextId := st.store.nextId + 1 } })) := by
  refine ⟨fun h => ?_, fun hn he hc => ?_, fun hn he hc hb => ?_,
    fun hn he hc hb hd => ?_, fun hn he hc hb hd => ?_⟩
  · rcases h with h | h <;> simp [TransferManager.create_account, h]
  · simp at hc
    simp [TransferManager.create_account, hn, he, hc]
  · simp at hc
    simp [TransferManager.create_account, hn, he, hc, hb]
  · simp at hc
    simp [TransferManager.create_account, DatabaseManager.create_account,
      hn, he, hc, hb, hd]
  · simp at hc
    simp [TransferManager.create_account, DatabaseManager.create_account,
      hn, he, hc, hb, hd]

/-- Witness for C5: the four rejections and one successful insertion at
concrete inputs over the fixture store. -/
theorem C5_witness :
    TransferManager.create_account st0 "" "x@y.z" 5
      = ((false, "Name and email are required", none), st0) ∧
    TransferManager.create_account st0 "Carol" "caroly.z" 5
      = ((false, "Invalid email format", none), st0) ∧
    TransferManager.create_account st0 "Carol" "carol@y.z" (-3)
      = ((false, "Initial balance cannot be negative", none), st0) ∧
    TransferManager.create_account st0 "Carol" "alice@bank.io" 5
      = ((false, "Email alice@bank.io already exists", none), st0) ∧
    TransferManager.create_account st0 "Carol" "carol@y.z" 5
      = ((true, "Account created successfully for Carol with ID 3", some 3),
         ⟨⟨[rowA, rowB, ⟨3, "Carol", "carol@y.z", some 5⟩], 4, []⟩, []⟩) := by
  have h5 := (C5_create_account st0 "Carol" "carol@y.z" 5).2.2.2.2 (by decide)
    (by decide) (by decide) (by decide) (by decide)
  exact ⟨(C5_create_account st0 "" "x@y.z" 5).1 (Or.inl rfl),
    (C5_create_account st0 "Carol" "caroly.z" 5).2.1 (by decide) (by decide)
      (by decide),
    (C5_create_account st0 "Carol" "carol@y.z" (-3)).2.2.1 (by decide)
      (by decide) (by decide) (by decide),
    (C5_create_account st0 "Carol" "alice@bank.io" 5).2.2.2.1 (by decide)
      (by decide) (by decide) (by decide) (by decide),
    h5.trans (by decide)⟩

/-- C6: `delete_account` fails when the id is falsy (0), fails not-found when
no user carries the id, fails the name confirmation when the stored name
differs from the supplied one under case-sensitive comparison — each failure
leaving the store untouched — and deletes the row exactly when the
confirmation name equals the stored name, with the success message embedding
the deleted user's name. -/
theorem C6_delete_account (st : TMState) (user_id : Int)
    (confirm_name : String) :
    (user_id = 0 →
      TransferManager.delete_account st user_id confirm_name
        = ((false, "User ID is required"), st)) ∧
    (user_id ≠ 0 →
      DatabaseManager.get_user_by_id st.store user_id = none →
      TransferManager.delete_account st user_id confirm_name
        = ((false, "User with ID " ++ toString user_id ++ " not found"), st)) ∧
    (∀ user, user_id ≠ 0 →
      DatabaseManager.get_user_by_id st.store user_id = some user →
      user.name ≠ confirm_name →
      TransferManager.delete_account st user_id confirm_name
        = ((false, "Name confirmation failed. Account not deleted."), st)) ∧
    (∀ user, user_id ≠ 0 →
      DatabaseManager.get_user_by_id st.store user_id = some user →
      user.name = confirm_name →
      TransferManager.delete_account st user_id confirm_name
        = ((true,
            "Account for " ++ user.name ++ " (ID: " ++ toString user_id
              ++ ") deleted successfully"),
           { st with store := { st.store with
               rows := st.store.rows.filter (fun r => !(r.id == user_id)) } })) := by
  refine ⟨fun h => ?_, fun h0 hu => ?_, fun user h0 hu hn => ?_,
    fun user h0 hu hn => ?_⟩
  · simp [TransferManager.delete_account, h]
  · simp [TransferManager.delete_account, h0, hu]
  · simp [TransferManager.delete_account, h0, hu, hn]
  · simp [TransferManager.delete_account, DatabaseManager.delete_account,
      h0, hu, hn]

/-- Witness for C6: falsy id, unknown id, case-mismatched confirmation name
(row intact), and exact confirmation (row deleted, name in the message), all
at concrete inputs. -/
theorem C6_witness :
    TransferManager.delete_account st0 0 "Alice"
      = ((false, "User ID is required"), st0) ∧
    TransferManager.delete_account st0 9 "Alice"
      = ((false, "User with ID 9 not found"), st0) ∧
    TransferManager.delete_account st0 1 "alice"
      = ((false, "Name confirmation failed. Account not deleted."), st0) ∧
    TransferManager.delete_account st0 1 "Alice"
      = ((true, "Account for Alice (ID: 1) deleted successfully"),
         ⟨⟨[rowB], 3, []⟩, []⟩) := by
  have h4 := (C6_delete_account st0 1 "Alice").2.2.2 rowA (by decide)
    (by decide) (by decide)
  exact ⟨(C6_delete_account st0 0 "Alice").1 rfl,
    (C6_delete_account st0 9 "Alice").2.1 (by decide) (by decide)
      |>.trans (by decide),
    (C6_delete_account st0 1 "alice").2.2.1 rowA (by decide) (by decide)
      (by decide),
    h4.trans (by decide)⟩

/-- C7: `check_balance` fails with the invalid-input message when the id is
falsy or the name empty, fails not-found when no record matches id and name,
and otherwise succeeds with the formatted message and the balance; the
underlying `get_user_balance` yields the record's balance field, 0 when the
field is absent from a found record, and none when no record is found. -/
theorem C7_check_balance (st : TMState) (user_id : Int) (name : String) :
    (user_id = 0 ∨ name = "" →
      TransferManager.check_balance st user_id name
        = ((false, "User ID and name are required", none), st)) ∧
    (user_id ≠ 0 → name ≠ "" →
      DatabaseManager.get_user_by_id_and_name st.store user_id name = none →
      TransferManager.check_balance st user_id name
        = ((false,
            "User with ID " ++ toString user_id ++ " and name " ++ name
              ++ " not found", none), st) ∧
      DatabaseManager.get_user_balance st.store user_id name = none) ∧
    (∀ u, user_id ≠ 0 → name ≠ "" →
      DatabaseManager.get_user_by_id_and_name st.store user_id name = some u →
      TransferManager.check_balance st user_id name
        = ((true,
            "Balance for " ++ name ++ ": $" ++ toString (u.balance.getD 0),
            some (u.balance.getD 0)), st) ∧
      DatabaseManager.get_user_balance st.store user_id name
        = some (u.balance.getD 0)) ∧
    (∀ u, DatabaseManager.get_user_by_id_and_name st.store user_id name
        = some u →
      u.balance = none →
      DatabaseManager.get_user_balance st.store user_id name = some 0) := by
  refine ⟨fun h => ?_, fun h0 hn hu => ?_, fun u h0 hn hu => ?_,
    fun u hu hb => ?_⟩
  · rcases h with h | h <;> simp [TransferManager.check_balance, h]
  · constructor
    · simp [TransferManager.check_balance, DatabaseManager.get_user_balance,
        h0, hn, hu]
    · simp [DatabaseManager.get_user_balance, hu]
  · constructor
    · simp [TransferManager.check_balance, DatabaseManager.get_user_balance,
        h0, hn, hu]
    · simp [DatabaseManager.get_user_balance, hu]
  · simp [DatabaseManager.get_user_balance, hu, hb]

/-- Witness for C7: invalid input, not found, a successful formatted lookup,
and a found record without a balance field reading as 0. -/
theorem C7_witness :
    TransferManager.check_balance st0 0 "Alice"
      = ((false, "User ID and name are required", none), st0) ∧
    (TransferManager.check_balance st0 3 "Nobody"
      = ((false, "User with ID 3 and name Nobody not found", none), st0) ∧
     DatabaseManager.get_user_balance st0.store 3 "Nobody" = none) ∧
    (TransferManager.check_balance st0 1 "Alice"
      = ((true, "Balance for Alice: $100", some 100), st0) ∧
     DatabaseManager.get_user_balance st0.store 1 "Alice" = some 100) ∧
    DatabaseManager.get_user_balance stNoBal.store 5 "Eve" = some 0 := by
  have h2 := (C7_check_balance st0 3 "Nobody").2.1 (by decide) (by decide)
    (by decide)
  have h3 := (C7_check_balance st0 1 "Alice").2.2.1 rowA (by decide) (by decide)
    (by decide)
  exact ⟨(C7_check_balance st0 0 "Alice").1 (Or.inl rfl),
    ⟨h2.1.trans (by decide), h2.2⟩,
    ⟨h3.1.trans (by decide), h3.2.trans (by decide)⟩,
    (C7_check_balance stNoBal 5 "Eve").2.2.2 rowC (by decide) (by decide)⟩

/-- C8: starting from a store in which every stored balance is non-negative,
every Transfer Service operation (check, transfer, create, delete) preserves
that property: a transfer only deducts when the sender covers the amount and
only credits the positive amount, and account creation rejects a negative
initial balance. -/
theorem C8_nonneg_invariant (st : TMState) (sender_id : Int)
    (sender_name : String) (receiver_id amount user_id : Int)
    (name email confirm_name : String) (bal : Int)
    (h : balancesNonneg st.store) :
    balancesNonneg (TransferManager.check_balance st user_id name).2.store ∧
    balancesNonneg
      (TransferManager.transfer_funds st sender_id sender_name receiver_id
        amount).2.store ∧
    balancesNonneg (TransferManager.create_account st name email bal).2.store ∧
    balancesNonneg
      (TransferManager.delete_account st user_id confirm_name).2.store :=
  ⟨by rw [TransferManager.cb_state]; exact h,
   TransferManager.tf_preserves_nonneg st sender_id sender_name receiver_id
     amount h,
   TransferManager.ca_preserves_nonneg st name email bal h,
   TransferManager.da_preserves_nonneg st user_id confirm_name h⟩

/-- Witness for C8: the invariant holds on the fixture store and is preserved
by all four operations at concrete inputs. -/
theorem C8_witness :
    balancesNonneg (TransferManager.check_balance st0 1 "Alice").2.store ∧
    balancesNonneg (TransferManager.transfer_funds st0 1 "Alice" 2 40).2.store ∧
    balancesNonneg
      (TransferManager.create_account st0 "Carol" "carol@y.z" 5).2.store ∧
    balancesNonneg (TransferManager.delete_account st0 1 "Alice").2.store :=
  C8_nonneg_invariant st0 1 "Alice" 2 40 1 "Carol" "carol@y.z" "Alice" 5
    (by decide)

/-- C9: a self-transfer (sender id = receiver id, matching name, the only row
with that id, balance b ≥ a > 0, both writes succeeding) is not rejected: it
returns success and the account's final stored balance is b + a, the
receiver-side write overwriting the sender-side deduction on the same row, so
the total money in the store increases by a. -/
theorem C9_self_transfer (st : TMState) (uid : Int) (name : String)
    (amount : Int) (u : UserRow)
    (hu : DatabaseManager.get_user_by_id st.store uid = some u)
    (hn : u.name = name)
    (hone : st.store.rows.filter (fun r => r.id == uid) = [u])
    (ha : 0 < amount)
    (hb : amount ≤ u.balance.getD 0)
    (hf1 : st.store.writeFaults.headD false = false)
    (hf2 : st.store.writeFaults.tail.headD false = false) :
    (TransferManager.transfer_funds st uid name uid amount).1.1 = true ∧
    DatabaseManager.get_user_balance
        (TransferManager.transfer_funds st uid name uid amount).2.store uid name
      = some (u.balance.getD 0 + amount) ∧
    totalBalance (TransferManager.transfer_funds st uid name uid amount).2.store
      = totalBalance st.store + amount := by
  have h0 : ¬ amount ≤ 0 := by omega
  have hge : ¬ u.balance.getD 0 < amount := by omega
  have huid : u.id = uid := DatabaseManager.id_of_byid hu
  have hs : DatabaseManager.get_user_by_id_and_name st.store uid name = some u :=
    DatabaseManager.find?_idname_of_find?_id hu hn
  rw [TransferManager.tf_success st uid name uid amount u u h0 hs hu hge hf1 hf2]
  refine ⟨rfl, ?_, ?_⟩
  · unfold DatabaseManager.get_user_balance DatabaseManager.get_user_by_id_and_name
    unfold DatabaseManager.get_user_by_id_and_name at hs
    simp only [DatabaseManager.find?_idname_map, hs, Option.map_some']
    rw [DatabaseManager.updRow_hit huid]
    rw [DatabaseManager.updRow_hit
      (show ({ u with balance := some (u.balance.getD 0 - amount) }
        : UserRow).id = uid from huid)]
    rfl
  · show (((st.store.rows.map
          (DatabaseManager.updRow uid (u.balance.getD 0 - amount))).map
            (DatabaseManager.updRow uid (u.balance.getD 0 + amount))).map
        (fun r => r.balance.getD 0)).sum
      = (st.store.rows.map (fun r => r.balance.getD 0)).sum + amount
    rw [DatabaseManager.sum_two_updates st.store.rows uid u
      (u.balance.getD 0 - amount) (u.balance.getD 0 + amount) hone]
    omega

/-- Witness for C9: the self-transfer of 40 on Alice (id 1, balance 100)
succeeds, her stored balance becomes 140 = 100 + 40, and the total money in
the fixture store grows by 40. -/
theorem C9_witness :
    (TransferManager.transfer_funds st0 1 "Alice" 1 40).1.1 = true ∧
    DatabaseManager.get_user_balance
        (TransferManager.transfer_funds st0 1 "Alice" 1 40).2.store 1 "Alice"
      = some 140 ∧
    totalBalance (TransferManager.transfer_funds st0 1 "Alice" 1 40).2.store
      = totalBalance st0.store + 40 := by
  have h := C9_self_transfer st0 1 "Alice" 40 rowA (by decide) (by decide)
    (by decide) (by decide) (by decide) (by decide) (by decide)
  exact ⟨h.1, h.2.1.trans (by decide), h.2.2⟩

/-- C10: the in-memory ledger is append-only across all operations — only a
fully successful `transfer_funds` appends (exactly one record), every failing
transfer and every other operation leaves it untouched, and
`get_transaction_history` returns the list itself in append order — and each
record a successful transfer appends satisfies the two balance equations, a
positive amount, and a non-negative sender balance afterwards. -/
theorem C10_ledger_append_only (st : TMState) (sender_id : Int)
    (sender_name : String) (receiver_id amount user_id : Int)
    (name email confirm_name : String) (bal : Int) :
    ((TransferManager.transfer_funds st sender_id sender_name receiver_id
        amount).1.1 = false →
      (TransferManager.transfer_funds st sender_id sender_name receiver_id
        amount).2.transactions = st.transactions) ∧
    ((TransferManager.transfer_funds st sender_id sender_name receiver_id
        amount).1.1 = true →
      ∃ t, txWF t ∧
        (TransferManager.transfer_funds st sender_id sender_name receiver_id
          amount).2.transactions = st.transactions ++ [t]) ∧
    (TransferManager.check_balance st user_id name).2.transactions
      = st.transactions ∧
    (TransferManager.create_account st name email bal).2.transactions
      = st.transactions ∧
    (TransferManager.delete_account st user_id confirm_name).2.transactions
      = st.transactions ∧
    TransferManager.get_transaction_history st = st.transactions ∧
    ((∀ t ∈ st.transactions, txWF t) →
      ∀ t ∈ (TransferManager.transfer_funds st sender_id sender_name receiver_id
        amount).2.transactions, txWF t) := by
  have hl := TransferManager.tf_ledger st sender_id sender_name receiver_id amount
  refine ⟨hl.1, hl.2, by rw [TransferManager.cb_state],
    TransferManager.ca_transactions st name email bal,
    TransferManager.da_transactions st user_id confirm_name, rfl, ?_⟩
  intro hwf t ht
  cases hres : (TransferManager.transfer_funds st sender_id sender_name
      receiver_id amount).1.1 with
  | false =>
    rw [hl.1 hres] at ht
    exact hwf t ht
  | true =>
    rcases hl.2 hres with ⟨t0, ht0, heq⟩
    rw [heq] at ht
    rcases List.mem_append.mp ht with ht | ht
    · exact hwf t ht
    · simp only [List.mem_singleton] at ht
      subst ht
      exact ht0

/-- Witness for C10: a successful transfer appends one well-formed record, a
failing transfer and the other operations leave the empty fixture ledger
empty, and the history accessor returns the ledger. -/
theorem C10_witness :
    (∃ t, txWF t ∧
      (TransferManager.transfer_funds st0 1 "Alice" 2 40).2.transactions
        = st0.transactions ++ [t]) ∧
    (TransferManager.transfer_funds st0 1 "Alice" 2 0).2.transactions
      = st0.transactions ∧
    (TransferManager.check_balance st0 1 "Alice").2.transactions
      = st0.transactions ∧
    (TransferManager.create_account st0 "Carol" "carol@y.z" 5).2.transactions
      = st0.transactions ∧
    (TransferManager.delete_account st0 1 "Alice").2.transactions
      = st0.transactions ∧
    TransferManager.get_transaction_history st0 = st0.transactions ∧
    (∀ t ∈ (TransferManager.transfer_funds st0 1 "Alice" 2 40).2.transactions,
      txWF t) := by
  have hA := C10_ledger_append_only st0 1 "Alice" 2 40 1 "Carol" "carol@y.z"
    "Alice" 5
  have hB := C10_ledger_append_only st0 1 "Alice" 2 0 1 "Carol" "carol@y.z"
    "Alice" 5
  exact ⟨hA.2.1 (by decide), hB.1 (by decide), hA.2.2.1, hA.2.2.2.1,
    hA.2.2.2.2.1, hA.2.2.2.2.2.1, hA.2.2.2.2.2.2 (by decide)⟩
